import Mathlib

/-!
Verification development for the NBA forecasting pipeline
(`src/ingest_boxscores.py`, `src/build_features_real.py`,
`src/build_model_dataset.py`).

The Python source is shallowly embedded: dataframes become lists of
records, SQLite tables become lists with explicit keyed-write
semantics, raised exceptions become `Except.error`, and numeric values
become `ℚ` (or `ℝ` for the trigonometric haversine formula).
-/

namespace NbaPipeline

/-! ## Ingestion connector (`src/ingest_boxscores.py`)

Rows are embedded with the column types the code manipulates: the
provider returns minutes as a raw string (for example `"32:45"`), and
the counting stats as integers. -/

/-- A row of the `games` table, as built by `fetch_games_for_date`
(`game_id`, `season`, `game_date`, `home_team_id`, `away_team_id`). -/
structure GameRow where
  game_id : Nat
  season : Nat
  game_date : Nat
  home_team_id : Nat
  away_team_id : Nat
deriving DecidableEq, Repr

/-- A row of the `boxscores` table, as returned by `fetch_boxscores`
after its column selection and rename. -/
structure BoxRow where
  game_id : Nat
  player_id : Nat
  team_id : Nat
  opponent_team_id : Nat
  minutes : String
  points : Int
  rebounds : Int
  assists : Int
  steals : Int
  blocks : Int
  turnovers : Int
deriving DecidableEq, Repr

/-- The normalized store: the two SQLite tables populated by ingestion. -/
structure Store where
  games : List GameRow
  boxscores : List BoxRow
deriving DecidableEq, Repr

/-- One entry of the scoreboardv3 payload consumed by
`fetch_games_for_date` (`gameId`, `season`, `gameDateEst`,
`homeTeam.teamId`, `awayTeam.teamId`). -/
structure ProviderGame where
  gameId : Nat
  season : Nat
  gameDateEst : Nat
  homeTeamId : Nat
  awayTeamId : Nat
deriving DecidableEq, Repr

/-- Embeds `fetch_games_for_date`: each scoreboard entry is mapped to a
`games` row, with home/away team identifiers taken from the provider's
`homeTeam`/`awayTeam` fields (not derived from boxscore player rows).
An unreachable provider or an empty slate is embedded as the empty
list, matching the `return pd.DataFrame()` branches. -/
def fetch_games_for_date (scoreboard : List ProviderGame) : List GameRow :=
  scoreboard.map (fun g =>
    { game_id := g.gameId
      season := g.season
      game_date := g.gameDateEst
      home_team_id := g.homeTeamId
      away_team_id := g.awayTeamId })

/-- Embeds one `INSERT OR REPLACE INTO games` statement: the row with
the same `game_id` is replaced, otherwise the row is appended.

Modelled from the spec: `sql/schema.sql` is not under `src/`; the spec
gives the `games` key as "at most one Game per identifier; writes are
idempotent (latest write wins)". -/
def upsertGame (tbl : List GameRow) (g : GameRow) : List GameRow :=
  if tbl.any (fun r => r.game_id == g.game_id) then
    tbl.map (fun r => if r.game_id == g.game_id then g else r)
  else
    tbl ++ [g]

/-- Embeds `upsert_games`: `executemany` runs the `INSERT OR REPLACE`
statement once per dataframe record, in order. -/
def upsert_games (tbl : List GameRow) (df_games : List GameRow) : List GameRow :=
  df_games.foldl upsertGame tbl

/-- Sequentially inserts rows, failing at the first duplicate
`(game_id, player_id)` key. -/
def insertRows (tbl : List BoxRow) : List BoxRow → Except String (List BoxRow)
  | [] => Except.ok tbl
  | r :: rest =>
    if tbl.any (fun x => x.game_id == r.game_id && x.player_id == r.player_id) then
      Except.error "IntegrityError"
    else
      insertRows (tbl ++ [r]) rest

/-- Embeds `insert_boxscores`: a plain `INSERT INTO boxscores` (no `OR
REPLACE`) run by `executemany`.

Modelled from the spec: `sql/schema.sql` is not under `src/`; the spec
gives the `boxscores` key as "(game identifier, player identifier)
pair, unique", so a plain SQL `INSERT` of a row whose key is already
present raises `IntegrityError`, and the connection context manager
rolls the statement back (`Except.error`; the caller keeps the old
table). -/
def insert_boxscores (tbl : List BoxRow) (df_box : List BoxRow) : Except String (List BoxRow) :=
  insertRows tbl df_box

/-- The per-game loop body of `ingest_date`: fetch the boxscore, insert
its rows, and stop with the raised exception on any failure (there is
no try/except around the loop body). `fetchBox` embeds
`fetch_boxscores`, whose network call may raise. -/
def ingestLoop (fetchBox : Nat → Except String (List BoxRow)) :
    Store → List Nat → Store × Option String
  | st, [] => (st, none)
  | st, gid :: rest =>
    match fetchBox gid with
    | Except.error e => (st, some e)
    | Except.ok df_box =>
      match insert_boxscores st.boxscores df_box with
      | Except.error e => (st, some e)
      | Except.ok tbl => ingestLoop fetchBox { st with boxscores := tbl } rest

/-- Embeds `ingest_date`: fetch the game list; return early if it is
empty; upsert all `games` rows; then fetch and insert boxscores game by
game. The second component records the exception that aborted the call,
if any (the Python function returns `None` and lets exceptions
propagate; it builds no report). -/
def ingest_date (scoreboard : List ProviderGame)
    (fetchBox : Nat → Except String (List BoxRow)) (st : Store) :
    Store × Option String :=
  let games := fetch_games_for_date scoreboard
  if games.isEmpty then (st, none)
  else
    let st1 : Store := { st with games := upsert_games st.games games }
    ingestLoop fetchBox st1 (games.map (fun g => g.game_id))

/-- Number of boxscore rows stored under a given (game, player) key. -/
def countKey (tbl : List BoxRow) (gid pid : Nat) : Nat :=
  (tbl.filter (fun r => r.game_id == gid && r.player_id == pid)).length

/-! ## Minutes parsing (`clean_minutes` in `src/build_features_real.py`) -/

/-- A Python value reaching `clean_minutes`: `None`, a number
(`int`/`float`), or a string. -/
inductive MinVal where
  | pynone : MinVal
  | num (q : ℚ) : MinVal
  | str (s : String) : MinVal
deriving DecidableEq, Repr

/-- Splits a character list at every occurrence of `c`, like Python's
`str.split`. -/
def splitOnChar (c : Char) : List Char → List (List Char)
  | [] => [[]]
  | x :: xs =>
    match splitOnChar c xs with
    | [] => [[x]]
    | h :: t => if x == c then [] :: h :: t else (x :: h) :: t

/-- Value of a digit string read in base 10. -/
def digitsToNat (l : List Char) : Nat :=
  l.foldl (fun n c => n * 10 + (c.toNat - 48)) 0

/-- Unsigned decimal literal (digits with at most one point, at least
one digit) read as a rational, else `none`. -/
def decimalToRat? (l : List Char) : Option ℚ :=
  match splitOnChar '.' l with
  | [ip] =>
    if ip.length > 0 && ip.all Char.isDigit then some (digitsToNat ip) else none
  | [ip, fp] =>
    if (ip.length + fp.length > 0) && ip.all Char.isDigit && fp.all Char.isDigit then
      some ((digitsToNat ip : ℚ) + (digitsToNat fp : ℚ) / (10 : ℚ) ^ fp.length)
    else none
  | _ => none

/-- Embeds the Python builtin `float(str)` on the literal forms the
pipeline feeds it: optional surrounding whitespace, an optional sign,
then a decimal literal. Other accepted Python forms (exponents,
`inf`/`nan`) do not occur here and are mapped to `none` (a raised
`ValueError`). -/
def pyFloat? (s : List Char) : Option ℚ :=
  let t := ((s.dropWhile Char.isWhitespace).reverse.dropWhile Char.isWhitespace).reverse
  match t with
  | '-' :: rest => (decimalToRat? rest).map (fun q => -q)
  | '+' :: rest => decimalToRat? rest
  | _ => decimalToRat? t

/-- Embeds `clean_minutes`. `None` and numbers are handled first; a
string containing a colon is split on it and both parts are passed to
`float`, with no surrounding try/except (a non-numeric part or a split
of size other than two raises `ValueError`); any other string falls to
the trailing `try: return float(min_str) except: return 0.0`. -/
def clean_minutes : MinVal → Except String ℚ
  | MinVal.pynone => Except.ok 0
  | MinVal.num q => Except.ok q
  | MinVal.str s =>
    if s.data.contains ':' then
      match splitOnChar ':' s.data with
      | [m, sec] =>
        match pyFloat? m, pyFloat? sec with
        | some mv, some sv => Except.ok (mv + sv / 60)
        | _, _ => Except.error "ValueError"
      | _ => Except.error "ValueError"
    else
      match pyFloat? s.data with
      | some v => Except.ok v
      | none => Except.ok 0

/-! ## Feature engine (`src/build_features_real.py`)

The merged dataframe row (`boxscores` joined with `games`, minutes
cleaned) carries numeric stats as rationals. -/

/-- A cleaned and merged feature-frame row. -/
structure FRow where
  game_id : Nat
  player_id : Nat
  team_id : Nat
  opponent_team_id : Nat
  game_date : Nat
  minutes : ℚ
  points : ℚ
  rebounds : ℚ
  assists : ℚ
  steals : ℚ
  blocks : ℚ
  turnovers : ℚ
deriving DecidableEq, Repr

/-- Embeds `dk_fp`, the fantasy-scoring formula applied row-wise to the
boxscore frame. -/
def dk_fp (row : FRow) : ℚ :=
  row.points +
  1.25 * row.rebounds +
  1.5 * row.assists +
  2 * row.steals +
  2 * row.blocks -
  0.5 * row.turnovers

/-- The canonical scoring formula in the claim's words: points plus
5/4 rebounds plus 3/2 assists plus 2 steals plus 2 blocks minus half
the turnovers. -/
def dk_fp_claim (row : FRow) : ℚ :=
  row.points + 5 / 4 * row.rebounds + 3 / 2 * row.assists +
  2 * row.steals + 2 * row.blocks - 1 / 2 * row.turnovers

/-- Attaches the `dk_fp` column, embedding
`df_box["dk_fp"] = df_box.apply(dk_fp, axis=1)`. -/
def addDkFp (rows : List FRow) : List (FRow × ℚ) :=
  rows.map (fun r => (r, dk_fp r))

/-- Stable insertion of `x` into a list sorted by `le`. -/
def insertSorted {α : Type} (le : α → α → Bool) (x : α) : List α → List α
  | [] => [x]
  | y :: ys => if le x y then x :: y :: ys else y :: insertSorted le x ys

/-- Stable insertion sort, embedding `DataFrame.sort_values` on the key
comparisons the pipeline uses (all the claims considered use inputs
with distinct sort keys, so stability is immaterial). -/
def insSort {α : Type} (le : α → α → Bool) : List α → List α
  | [] => []
  | x :: xs => insertSorted le x (insSort le xs)

/-- Embeds `df.sort_values(["player_id", "game_date"])`. -/
def sortByPlayerDate (rows : List FRow) : List FRow :=
  insSort (fun a b =>
    a.player_id < b.player_id ||
    (a.player_id == b.player_id && a.game_date ≤ b.game_date)) rows

/-- Worker for the grouped rolling mean: `seen` holds the frame rows
before the current one; the window for the current row is the last `w`
values of its player's rows up to AND INCLUDING the current row, which
is exactly what `groupby(...)[col].rolling(w, min_periods=1).mean()`
computes (pandas rolling windows end at the current row; the code
applies no `shift`). -/
def rollGo (w : Nat) (val : FRow → ℚ) (seen : List FRow) : List FRow → List ℚ
  | [] => []
  | r :: rest =>
    let grp := ((seen ++ [r]).filter (fun x => x.player_id == r.player_id)).map val
    let win := grp.drop (grp.length - w)
    (win.sum / win.length) :: rollGo w val (seen ++ [r]) rest

/-- Embeds one `{col}_roll{w}` column: the per-player rolling mean of
`val` with window `w` and `min_periods=1`, aligned with the input
rows. -/
def roll_col (w : Nat) (val : FRow → ℚ) (rows : List FRow) : List ℚ :=
  rollGo w val [] rows

/-- Total of `val` over the rows whose (opponent team, game date) pair
is `k`: one aggregated row of
`df.groupby(["opponent_team_id", "game_date"]).agg("sum")`. -/
def oppTotal (val : FRow → ℚ) (rows : List FRow) (k : Nat × Nat) : ℚ :=
  ((rows.filter (fun r => r.opponent_team_id == k.1 && r.game_date == k.2)).map val).sum

/-- The distinct (opponent team, game date) keys, sorted
lexicographically, embedding the grouped frame after
`opp.sort_values(["opponent_team_id", "game_date"])`. -/
def oppKeys (rows : List FRow) : List (Nat × Nat) :=
  insSort (fun a b => a.1 < b.1 || (a.1 == b.1 && a.2 ≤ b.2))
    ((rows.map (fun r => (r.opponent_team_id, r.game_date))).dedup)

/-- Worker for the opponent-allowed rolling mean over the aggregated
per-(team, date) totals, again with pandas window semantics: the
window ends at (and includes) the current date's total. -/
def oppRollGo (w : Nat) (totals : Nat × Nat → ℚ) (seen : List (Nat × Nat)) :
    List (Nat × Nat) → List ((Nat × Nat) × ℚ)
  | [] => []
  | k :: rest =>
    let grp := ((seen ++ [k]).filter (fun x => x.1 == k.1)).map totals
    let win := grp.drop (grp.length - w)
    (k, win.sum / win.length) :: oppRollGo w totals (seen ++ [k]) rest

/-- Embeds one `opp_{col}_allowed_roll{w}` column before the merge:
the rolling mean over each opponent team's per-date conceded totals. -/
def opp_allowed_roll (w : Nat) (val : FRow → ℚ) (rows : List FRow) :
    List ((Nat × Nat) × ℚ) :=
  oppRollGo w (oppTotal val rows) [] (oppKeys rows)

/-- Embeds the final left merge on `["opponent_team_id", "game_date"]`:
the opponent-allowed value joined onto a player row (`none` for a key
absent from the aggregated frame). -/
def oppFeature (w : Nat) (val : FRow → ℚ) (rows : List FRow) (r : FRow) : Option ℚ :=
  ((opp_allowed_roll w val rows).find? (fun kv => kv.1.1 == r.opponent_team_id && kv.1.2 == r.game_date)).map (fun kv => kv.2)

/-! ## Columns of the feature table

`build_features` is column-assignment driven; the names below mirror
each `df[...] = ...` assignment in source order. -/

/-- The `roll_fields` list of `build_features`. -/
def roll_fields : List String :=
  ["minutes", "points", "rebounds", "assists", "steals", "blocks", "turnovers", "dk_fp"]

/-- The window sizes iterated by both rolling loops: `for w in [5, 10]`. -/
def rollWindows : List Nat := [5, 10]

/-- The stat columns aggregated and rolled in the opponent-allowed
(DvP) section. -/
def opp_agg_fields : List String :=
  ["points", "rebounds", "assists", "steals", "blocks", "turnovers", "dk_fp"]

/-- Columns added by the rolling-averages loop: `f"{col}_roll{w}"` for
`w in [5, 10]` and `col in roll_fields`. -/
def rollingAddedColumns : List String :=
  rollWindows.flatMap (fun w => roll_fields.map (fun c => c ++ "_roll" ++ toString w))

/-- Columns added by the opponent-allowed merge:
`f"opp_{col}_allowed_roll{w}"`. -/
def oppAddedColumns : List String :=
  rollWindows.flatMap (fun w => opp_agg_fields.map (fun c => "opp_" ++ c ++ "_allowed_roll" ++ toString w))

/-- Columns selected from `boxscores` by the SQL query. -/
def boxQueryColumns : List String :=
  ["game_id", "player_id", "team_id", "opponent_team_id", "minutes",
   "points", "rebounds", "assists", "steals", "blocks", "turnovers"]

/-- Columns brought in by `df_box.merge(df_games, on="game_id")`. -/
def gameMergeColumns : List String := ["game_date", "home_team_id", "away_team_id"]

/-- All columns of the feature table written by `build_features`, in
assignment order: the queried boxscore columns, `dk_fp`, the game
merge, the rest/travel block, the rolling means, and the
opponent-allowed rolling means. -/
def featureTableColumns : List String :=
  boxQueryColumns ++ ["dk_fp"] ++ gameMergeColumns ++
  ["prev_game_date", "days_rest", "is_b2b", "is_3in4", "prev_game_id", "travel_km"] ++
  rollingAddedColumns ++ oppAddedColumns

/-- Whether `needle` occurs at the start of the second list. -/
def startsWithChars : List Char → List Char → Bool
  | [], _ => true
  | _ :: _, [] => false
  | p :: ps, x :: xs => p == x && startsWithChars ps xs

/-- Whether `needle` occurs as a contiguous run anywhere in the list. -/
def containsChars (needle : List Char) : List Char → Bool
  | [] => needle.isEmpty
  | x :: xs => startsWithChars needle (x :: xs) || containsChars needle xs

/-- Column name announcing a trailing standard deviation or a
consistency score, in either of the spec's words for it. -/
def isConsistencyColumn (c : String) : Bool :=
  containsChars "consistency".data c.data || containsChars "std".data c.data

/-- The claim's reading of §4.2: for every configured window, some
column of the feature table is that window's consistency-score
column. -/
def carriesConsistencyScores : Prop :=
  ∀ w ∈ rollWindows, ∃ c ∈ featureTableColumns,
    isConsistencyColumn c = true ∧ containsChars (toString w).data c.data = true

instance : Decidable carriesConsistencyScores := by
  unfold carriesConsistencyScores; infer_instance

/-! ## Rest and travel (`compute_travel` and `haversine`) -/

/-- Embeds `haversine` over the reals (Python floats are modelled as
real numbers; `math.cos`, `math.asin`, `math.sqrt` become `Real.cos`,
`Real.arcsin`, `Real.sqrt`). -/
noncomputable def haversine (lat1 lon1 lat2 lon2 : ℝ) : ℝ :=
  let R : ℝ := 6371
  let p : ℝ := Real.pi / 180
  let a : ℝ := 0.5 - Real.cos ((lat2 - lat1) * p) / 2 +
    Real.cos (lat1 * p) * Real.cos (lat2 * p) *
    (1 - Real.cos ((lon2 - lon1) * p)) / 2
  2 * R * Real.arcsin (Real.sqrt a)

/-- The dataframe row as seen by `compute_travel`, after
`df["prev_game_date"] = df.groupby("player_id")["game_date"].shift(1)`. -/
structure TRow where
  player_id : Nat
  game_date : Nat
  opponent_team_id : Nat
  prev_game_date : Option Nat
deriving DecidableEq, Repr

/-- Pandas attribute access on a row of this frame: the named column's
value, or an `AttributeError` (`none`) when no such column exists.
`opponent_team` is NOT a column of the frame (the query names it
`opponent_team_id`). -/
def rowAttr (r : TRow) (name : String) : Option ℚ :=
  match name with
  | "player_id" => some r.player_id
  | "game_date" => some r.game_date
  | "opponent_team_id" => some r.opponent_team_id
  | _ => none

/-- Embeds `compute_travel`. `locs` is the static team→(lat, lon)
lookup. A row with no previous game returns `0.0`; otherwise the
previous game's row is located, both rows' `opponent_team` attribute is
read (which raises `AttributeError`, since the column is
`opponent_team_id`), and `haversine` is called with each venue's
longitude in the latitude slot and vice versa, exactly as in the
source (`haversine(prev_lon, prev_lat, curr_lon, curr_lat)`). -/
noncomputable def compute_travel (locs : Nat → ℚ × ℚ) (df : List TRow) (row : TRow) :
    Except String ℝ :=
  match row.prev_game_date with
  | none => Except.ok 0
  | some pdate =>
    match (df.filter (fun x => x.player_id == row.player_id && x.game_date == pdate)).head? with
    | none => Except.error "IndexError"
    | some prev =>
      match rowAttr prev "opponent_team" with
      | none => Except.error "AttributeError: opponent_team"
      | some pt =>
        match rowAttr row "opponent_team" with
        | none => Except.error "AttributeError: opponent_team"
        | some ct =>
          let ploc := locs pt.floor.toNat
          let cloc := locs ct.floor.toNat
          Except.ok (haversine (ploc.2 : ℝ) (ploc.1 : ℝ) (cloc.2 : ℝ) (cloc.1 : ℝ))

/-! ## Dataset partitioner (`train_test_split` in
`src/build_model_dataset.py`) -/

/-- A feature-table row as the partitioner sees it: its date plus an
identifier standing for the remaining payload. -/
structure DRow where
  game_date : Nat
  row_id : Nat
deriving DecidableEq, Repr

/-- Embeds `df.sort_values("game_date")`. -/
def sortByDate (df : List DRow) : List DRow :=
  insSort (fun a b => a.game_date ≤ b.game_date) df

/-- The cutoff date `train_test_split` resolves: the supplied one, or
the date of the sorted row at index `int(len(df) * 0.80)` (for the row
counts considered here this equals `len * 8 / 10`; an empty frame
would raise `IndexError`, embedded as the `none` cutoff). -/
def resolvedCutoff (df : List DRow) (cutoff_date : Option Nat) : Option Nat :=
  match cutoff_date with
  | some c => some c
  | none => ((sortByDate df).get? ((sortByDate df).length * 8 / 10)).map (fun r => r.game_date)

/-- Embeds `train_test_split`: sort by date, resolve the cutoff, then
train is every row dated on or before the cutoff and test every row
dated strictly after. -/
def train_test_split (df : List DRow) (cutoff_date : Option Nat) :
    List DRow × List DRow × Option Nat :=
  match resolvedCutoff df cutoff_date with
  | none => ([], [], none)
  | some c =>
    ((sortByDate df).filter (fun r => r.game_date ≤ c),
     (sortByDate df).filter (fun r => c < r.game_date),
     some c)

/-! ## Concrete fixtures used by the theorems below -/

/-- A 100-row feature table with distinct increasing dates. -/
def rows100 : List DRow :=
  (List.range 100).map (fun i => { game_date := i, row_id := i })

/-- First game of the C1 player: date 1, 10 points. -/
def exR1 : FRow :=
  { game_id := 1, player_id := 1, team_id := 10, opponent_team_id := 50, game_date := 1,
    minutes := 30, points := 10, rebounds := 0, assists := 0, steals := 0, blocks := 0,
    turnovers := 0 }

/-- Second game of the C1 player: date 2, 20 points, same opponent. -/
def exR2 : FRow :=
  { game_id := 2, player_id := 1, team_id := 10, opponent_team_id := 50, game_date := 2,
    minutes := 30, points := 20, rebounds := 0, assists := 0, steals := 0, blocks := 0,
    turnovers := 0 }

/-- The two-game frame for the rolling-leakage evaluation. -/
def exRows : List FRow := [exR1, exR2]

/-- Scoreboard entry for the single-game ingestion scenarios. -/
def pgA : ProviderGame :=
  { gameId := 1, season := 2024, gameDateEst := 100, homeTeamId := 10, awayTeamId := 20 }

/-- Scoreboard entries for the three-game scenario. -/
def pgB : ProviderGame :=
  { gameId := 2, season := 2024, gameDateEst := 100, homeTeamId := 30, awayTeamId := 40 }

/-- Third scoreboard entry of the three-game scenario. -/
def pgC : ProviderGame :=
  { gameId := 3, season := 2024, gameDateEst := 100, homeTeamId := 50, awayTeamId := 60 }

/-- A well-formed boxscore row for game `gid`, player 7. -/
def mkBox (gid : Nat) : BoxRow :=
  { game_id := gid, player_id := 7, team_id := 10, opponent_team_id := 20,
    minutes := "32:45", points := 11, rebounds := 4, assists := 3, steals := 1,
    blocks := 0, turnovers := 2 }

/-- Boxscore fetcher whose game-2 fetch fails every retry with a
network timeout; the other games succeed. -/
def fetchFail2 (gid : Nat) : Except String (List BoxRow) :=
  if gid == 2 then Except.error "ReadTimeout" else Except.ok [mkBox gid]

/-- A malformed boxscore: every player row carries the same single
team identifier 300, so the distinct-team count is 1, not 2. -/
def malRows : List BoxRow :=
  [{ game_id := 7, player_id := 7, team_id := 300, opponent_team_id := 400,
     minutes := "30:00", points := 10, rebounds := 5, assists := 3, steals := 1,
     blocks := 1, turnovers := 2 },
   { game_id := 7, player_id := 8, team_id := 300, opponent_team_id := 400,
     minutes := "20:00", points := 8, rebounds := 2, assists := 1, steals := 0,
     blocks := 0, turnovers := 1 }]

/-- Scoreboard entry whose boxscore is `malRows`. -/
def pgMal : ProviderGame :=
  { gameId := 7, season := 2024, gameDateEst := 100, homeTeamId := 100, awayTeamId := 200 }

/-- A frame row with no previous game. -/
def trowFirst : TRow :=
  { player_id := 1, game_date := 1, opponent_team_id := 60, prev_game_date := none }

/-- A frame row whose previous game is `trowFirst`. -/
def trowPrev : TRow :=
  { player_id := 1, game_date := 2, opponent_team_id := 50, prev_game_date := some 1 }

/-- A stat line whose only nonzero stat is one steal. -/
def stealOnlyRow : FRow :=
  { game_id := 0, player_id := 0, team_id := 0, opponent_team_id := 0, game_date := 0,
    minutes := 0, points := 0, rebounds := 0, assists := 0, steals := 1, blocks := 0,
    turnovers := 0 }

/-- Fetcher for the idempotence scenario: the provider reports the
same single-player boxscore on both runs. -/
def c2Fetch : Nat → Except String (List BoxRow) := fun _ => Except.ok [mkBox 1]

/-- First ingestion of the date. -/
def c2Once : Store × Option String :=
  ingest_date [pgA] c2Fetch { games := [], boxscores := [] }

/-- Second, identical ingestion of the same date. -/
def c2Twice : Store × Option String := ingest_date [pgA] c2Fetch c2Once.1

/-- The three-game run in which game 2's fetch fails every retry. -/
def c3Run : Store × Option String :=
  ingest_date [pgA, pgB, pgC] fetchFail2 { games := [], boxscores := [] }

/-- A one-game run whose only boxscore fetch fails. -/
def c6Run : Store × Option String :=
  ingest_date [pgA] (fun _ => Except.error "ReadTimeout") { games := [], boxscores := [] }

/-- Ingestion of the malformed (single-team) boxscore. -/
def c9Run : Store × Option String :=
  ingest_date [pgMal] (fun _ => Except.ok malRows) { games := [], boxscores := [] }

/-! ## Helper lemmas about the ingestion loop -/

/-- The per-game loop never touches the `games` table: `ingest_date`
committed it before the first boxscore fetch. -/
theorem ingestLoop_games_const (fb : Nat → Except String (List BoxRow)) :
    ∀ (gids : List Nat) (st : Store), ((ingestLoop fb st gids).1).games = st.games := by
  intro gids
  induction gids with
  | nil => intro st; rfl
  | cons g rest ih =>
    intro st
    simp only [ingestLoop]
    cases fb g with
    | error e => rfl
    | ok rows =>
      dsimp only
      cases insert_boxscores st.boxscores rows with
      | error e => rfl
      | ok tbl => exact ih _

/-- If the loop ingests a list of games cleanly and the next game's
fetch raises, the whole loop stops there with that error, leaving the
store as after the clean part; later games are never processed. -/
theorem ingestLoop_mid_error (fb : Nat → Except String (List BoxRow)) (g : Nat) (e : String)
    (post : List Nat) :
    ∀ (gl : List Nat) (st st1 : Store), ingestLoop fb st gl = (st1, none) →
      fb g = Except.error e →
      ingestLoop fb st (gl ++ g :: post) = (st1, some e) := by
  intro gl
  induction gl with
  | nil =>
    intro st st1 h hg
    simp only [ingestLoop] at h
    injection h with h1 h2
    subst h1
    simp only [List.nil_append, ingestLoop, hg]
  | cons x rest ih =>
    intro st st1 h hg
    simp only [ingestLoop] at h
    simp only [List.cons_append, ingestLoop]
    cases hfb : fb x with
    | error e2 => rw [hfb] at h; simp at h
    | ok rows =>
      rw [hfb] at h
      dsimp only at h ⊢
      cases hins : insert_boxscores st.boxscores rows with
      | error e2 => rw [hins] at h; simp at h
      | ok tbl =>
        rw [hins] at h
        dsimp only at h ⊢
        exact ih _ _ h hg

/-! ## Theorems -/

/-- C10: the fantasy-points value attached by the feature engine equals
points + 1.25·rebounds + 1.5·assists + 2·steals + 2·blocks −
0.5·turnovers for every boxscore row; in particular a lone steal is
worth +2, not +3. -/
theorem C10_dk_fp_formula :
    (∀ rows : List FRow, addDkFp rows = rows.map (fun r => (r, dk_fp_claim r))) ∧
    dk_fp stealOnlyRow = 2 := by
  constructor
  · intro rows
    have h : ∀ r : FRow, dk_fp r = dk_fp_claim r := by
      intro r
      unfold dk_fp dk_fp_claim
      norm_num
    simp only [addDkFp, h]
  · norm_num [dk_fp, stealOnlyRow]

/-- C4 counterexample: minutes parsing is not total — a string that
contains a colon but whose parts are not numeric raises `ValueError`
(the colon branch of `clean_minutes` is outside the try/except). -/
theorem C4_counterexample :
    clean_minutes (MinVal.str "a:b") = Except.error "ValueError" := rfl

/-- C4 (amended): `None` parses to 0.0, a numeric input to its float
value, `"32:45"` to 32.75, and any string without a colon parses
without raising (invalid ones to 0.0); only colon-bearing strings with
non-numeric parts raise. -/
theorem C4_clean_minutes_amended :
    clean_minutes MinVal.pynone = Except.ok 0 ∧
    (∀ q : ℚ, clean_minutes (MinVal.num q) = Except.ok q) ∧
    clean_minutes (MinVal.str "32:45") = Except.ok (131 / 4) ∧
    (∀ s : String, s.data.contains ':' = false →
      ∃ v : ℚ, clean_minutes (MinVal.str s) = Except.ok v) := by
  refine ⟨rfl, fun q => rfl, ?_, ?_⟩
  · have h : clean_minutes (MinVal.str "32:45") =
        Except.ok (((32 : ℕ) : ℚ) + ((45 : ℕ) : ℚ) / 60) := rfl
    rw [h]
    norm_num
  · intro s hs
    simp only [clean_minutes, hs, Bool.false_eq_true, if_false]
    cases hp : pyFloat? s.data with
    | none => exact ⟨0, by simp [hp]⟩
    | some v => exact ⟨v, by simp [hp]⟩

/-- C4 witness: the amended theorem applied at `"abc"` (no colon,
non-numeric, parses to 0.0 without raising) and at the number 7. -/
theorem C4_witness :
    ("abc".data.contains ':' = false) ∧
    (∃ v : ℚ, clean_minutes (MinVal.str "abc") = Except.ok v) ∧
    clean_minutes (MinVal.num 7) = Except.ok 7 :=
  ⟨by decide, C4_clean_minutes_amended.2.2.2 "abc" (by decide),
   C4_clean_minutes_amended.2.1 7⟩

/-- C5 counterexample: on 100 rows with distinct increasing dates the
default split puts 81 rows in train and 19 in test, not 80/20 — the
cutoff row `iloc[int(len*0.80)]` itself lands in train. -/
theorem C5_counterexample :
    (train_test_split rows100 none).1.length = 81 ∧
    (train_test_split rows100 none).2.1.length = 19 ∧
    (train_test_split rows100 none).1 ≠ rows100.take 80 := by
  refine ⟨by decide, by decide, by decide⟩

/-- C5 (amended): with no supplied cutoff the cutoff is the date of
the sorted row at index `int(0.8·n)` (date 80 for the 100-row set);
train is every row dated on or before it — the first 81 sorted rows —
and test the remaining 19; ties at the cutoff go to train and no test
row is dated on or before the cutoff. -/
theorem C5_split_amended :
    ((train_test_split rows100 none).2.2 = some 80 ∧
     (train_test_split rows100 none).1 = rows100.take 81 ∧
     (train_test_split rows100 none).2.1 = rows100.drop 81) ∧
    (∀ (df : List DRow) (c0 : Option Nat) (c : Nat),
      (train_test_split df c0).2.2 = some c →
      (train_test_split df c0).1.all (fun r => r.game_date ≤ c) = true ∧
      (train_test_split df c0).2.1.all (fun r => c < r.game_date) = true) := by
  constructor
  · exact ⟨by decide, by decide, by decide⟩
  · intro df c0 c h
    unfold train_test_split at h ⊢
    cases h0 : resolvedCutoff df c0 with
    | none => rw [h0] at h; simp at h
    | some c2 =>
      simp only [h0] at h ⊢
      have hc : c2 = c := by simpa using h
      subst hc
      constructor
      · rw [List.all_eq_true]
        intro x hx
        exact (List.mem_filter.mp hx).2
      · rw [List.all_eq_true]
        intro x hx
        exact (List.mem_filter.mp hx).2

/-- C5 witness: the amended bound facts applied to the concrete
100-row dataset with its resolved cutoff 80. -/
theorem C5_witness :
    (train_test_split rows100 none).1.all (fun r => r.game_date ≤ 80) = true ∧
    (train_test_split rows100 none).2.1.all (fun r => 80 < r.game_date) = true :=
  C5_split_amended.2 rows100 none 80 (by decide)

/-- C7 counterexample: no column of the feature table is a trailing
standard deviation or consistency-score column for any configured
window — `build_features` computes rolling means only. -/
theorem C7_counterexample : ¬ carriesConsistencyScores := by decide

/-- C7 (amended): for each window the feature table carries exactly
the trailing-mean columns `{col}_roll{w}`, and no trailing standard
deviation or `1/(1+std)` consistency column exists. -/
theorem C7_columns_amended :
    rollingAddedColumns =
      ["minutes_roll5", "points_roll5", "rebounds_roll5", "assists_roll5", "steals_roll5",
       "blocks_roll5", "turnovers_roll5", "dk_fp_roll5",
       "minutes_roll10", "points_roll10", "rebounds_roll10", "assists_roll10", "steals_roll10",
       "blocks_roll10", "turnovers_roll10", "dk_fp_roll10"] ∧
    featureTableColumns.all (fun c => !(isConsistencyColumn c)) = true := by
  exact ⟨by decide, by decide⟩

/-- C2: re-ingesting the same date does not replace the game's
BoxscoreRecords — the plain `INSERT INTO boxscores` hits the
(game_id, player_id) key again, raises `IntegrityError`, and the whole
second call aborts with the store left as after the first call. -/
theorem C2_reingest_raises :
    c2Once.2 = none ∧
    countKey c2Once.1.boxscores 1 7 = 1 ∧
    c2Twice.2 = some "IntegrityError" ∧
    c2Twice.1 = c2Once.1 := by
  refine ⟨by decide, by decide, by decide, by decide⟩

/-- C3 counterexample: with three games and game 2's fetch failing all
retries, `ingest_date` aborts at game 2 — game 3's records are never
written and no report of ingested/skipped games is produced, contrary
to the claimed skip-and-continue behavior. -/
theorem C3_counterexample :
    c3Run.2 = some "ReadTimeout" ∧
    (c3Run.1.boxscores.filter (fun r => r.game_id == 1)).length = 1 ∧
    c3Run.1.boxscores.filter (fun r => r.game_id == 3) = [] := by
  refine ⟨by decide, by decide, by decide⟩

/-- C3 (amended): a per-game fetch failure is not caught —
`ingest_date` raises it and stops: the Game rows of the whole date were
already upserted, the games before the failing one keep their inserted
BoxscoreRecords, the failing and all later games are not ingested, and
no `IngestReport` is produced. -/
theorem C3_ingest_aborts (pre post : List ProviderGame) (g : ProviderGame)
    (fb : Nat → Except String (List BoxRow)) (st st2 : Store) (e : String)
    (hpre : ingestLoop fb
      { st with games := upsert_games st.games (fetch_games_for_date (pre ++ g :: post)) }
      (pre.map (fun x => x.gameId)) = (st2, none))
    (hg : fb g.gameId = Except.error e) :
    ingest_date (pre ++ g :: post) fb st = (st2, some e) := by
  have hne : (fetch_games_for_date (pre ++ g :: post)).isEmpty = false := by
    cases pre <;> simp [fetch_games_for_date]
  have hmap : (fetch_games_for_date (pre ++ g :: post)).map (fun r => r.game_id) =
      pre.map (fun x => x.gameId) ++ g.gameId :: post.map (fun x => x.gameId) := by
    simp [fetch_games_for_date, Function.comp_def]
  simp only [ingest_date, hne, Bool.false_eq_true, if_false, hmap]
  exact ingestLoop_mid_error fb g.gameId e (post.map (fun x => x.gameId))
    (pre.map (fun x => x.gameId)) _ _ hpre hg

/-- C3 witness: the amended theorem at the concrete three-game date
with game 2 failing. -/
theorem C3_witness :
    ingest_date ([pgA] ++ pgB :: [pgC]) fetchFail2 { games := [], boxscores := [] } =
      ({ games := upsert_games [] (fetch_games_for_date ([pgA] ++ pgB :: [pgC])),
         boxscores := [mkBox 1] }, some "ReadTimeout") :=
  C3_ingest_aborts [pgA] [pgC] pgB fetchFail2 { games := [], boxscores := [] }
    { games := upsert_games [] (fetch_games_for_date ([pgA] ++ pgB :: [pgC])),
      boxscores := [mkBox 1] } "ReadTimeout" (by decide) rfl

/-- C6 counterexample: a game whose only boxscore fetch fails leaves a
reachable store state holding that game's Game row with no
BoxscoreRecords — the Game row was committed before any boxscore
write. -/
theorem C6_counterexample :
    c6Run.1.games =
      [{ game_id := 1, season := 2024, game_date := 100, home_team_id := 10,
         away_team_id := 20 }] ∧
    c6Run.1.boxscores = [] := by
  refine ⟨by decide, by decide⟩

/-- C6 (amended): `ingest_date` upserts every Game row of the date
before fetching any boxscore, so whatever the fetch/insert outcomes,
the final `games` table is exactly the upsert of the whole slate — a
Game row can exist whose BoxscoreRecords were never written. -/
theorem C6_games_written_before_boxscores
    (scoreboard : List ProviderGame) (fb : Nat → Except String (List BoxRow)) (st : Store) :
    (ingest_date scoreboard fb st).1.games =
      upsert_games st.games (fetch_games_for_date scoreboard) := by
  cases hl : fetch_games_for_date scoreboard with
  | nil => simp only [ingest_date, hl]; rfl
  | cons g rest =>
    simp only [ingest_date, hl, List.isEmpty_cons, Bool.false_eq_true, if_false]
    exact ingestLoop_games_const fb _ _

/-- C9 counterexample: a boxscore whose player rows carry a single
distinct team identifier (1, not 2) is ingested anyway — no
`MalformedBoxscore` skip — and the stored home/away identifiers are
the scoreboard's 100/200, not values derived from the player rows. -/
theorem C9_counterexample :
    c9Run.2 = none ∧
    c9Run.1.boxscores = malRows ∧
    c9Run.1.games =
      [{ game_id := 7, season := 2024, game_date := 100, home_team_id := 100,
         away_team_id := 200 }] ∧
    (malRows.map (fun r => r.team_id)).dedup.length = 1 := by
  refine ⟨by decide, by decide, by decide, by decide⟩

/-- C9 (amended): home/away identifiers are taken from the provider's
scoreboard entry and the fetched player rows are inserted unchanged;
in particular a fetch whose rows do NOT contain exactly two distinct
team identifiers is still ingested, with no malformed-boxscore
validation or skip. -/
theorem C9_no_malformed_validation (g : ProviderGame) (rows : List BoxRow) (st : Store)
    (tbl : List BoxRow)
    (_hmal : (rows.map (fun r => r.team_id)).dedup.length ≠ 2)
    (hins : insert_boxscores st.boxscores rows = Except.ok tbl) :
    ingest_date [g] (fun _ => Except.ok rows) st =
      ({ games := upsert_games st.games
           [{ game_id := g.gameId, season := g.season, game_date := g.gameDateEst,
              home_team_id := g.homeTeamId, away_team_id := g.awayTeamId }],
         boxscores := tbl }, none) := by
  simp only [ingest_date, fetch_games_for_date, List.map_cons, List.map_nil,
    List.isEmpty_cons, Bool.false_eq_true, if_false, ingestLoop, hins]

/-- C1: evaluation at the failing input. A player's two games (dates 1
and 2, scoring 10 then 20 points) give rolling means [10, 15]: the
date-2 value 15 is the mean INCLUDING the row's own 20-point game, and
the date-1 value 10 is the row's own stat with no prior row at all;
the opponent-allowed rolling mean joined onto the date-2 row is
likewise 15, including that date's own conceded points. A
strictly-prior window would have produced 10 at date 2. -/
theorem C1_rolling_includes_current_game :
    roll_col 5 (fun r => r.points) (sortByPlayerDate exRows) = [10, 15] ∧
    oppFeature 5 (fun r => r.points) (sortByPlayerDate exRows) exR2 = some 15 ∧
    (15 : ℚ) ≠ 10 := by
  have hs : sortByPlayerDate exRows = [exR1, exR2] := by decide
  have hk : oppKeys [exR1, exR2] = [(50, 1), (50, 2)] := by decide
  refine ⟨?_, ?_, by norm_num⟩
  · rw [hs]
    norm_num [roll_col, rollGo, exR1, exR2]
  · rw [hs]
    norm_num [oppFeature, opp_allowed_roll, oppRollGo, oppTotal, hk, exR1, exR2]

/-- C8 counterexample: a row that does have a previous game yields no
travel distance at all — `compute_travel` reads the nonexistent row
attribute `opponent_team` (the column is `opponent_team_id`) and
raises `AttributeError` instead of returning a great-circle
distance. -/
theorem C8_counterexample :
    ¬ ∃ d : ℝ, compute_travel (fun _ => (0, 0)) [trowFirst, trowPrev] trowPrev =
      Except.ok d := by
  rintro ⟨d, hd⟩
  have h0 : compute_travel (fun _ => (0, 0)) [trowFirst, trowPrev] trowPrev =
      Except.error "AttributeError: opponent_team" := rfl
  rw [h0] at hd
  exact Except.noConfusion hd

/-- C8 (amended): travel is 0 when the player has no previous game;
when a previous game exists (and its row is found) the lookup of the
nonexistent `opponent_team` attribute raises, so no distance is
produced; the haversine formula itself — which the source would call
with latitudes and longitudes transposed — is symmetric in its two
points and non-negative for all real inputs. -/
theorem C8_travel_amended :
    (∀ (locs : Nat → ℚ × ℚ) (df : List TRow) (row : TRow),
      row.prev_game_date = none → compute_travel locs df row = Except.ok 0) ∧
    (∀ (locs : Nat → ℚ × ℚ) (df : List TRow) (row prev : TRow) (pdate : Nat),
      row.prev_game_date = some pdate →
      (df.filter (fun x => x.player_id == row.player_id && x.game_date == pdate)).head? =
        some prev →
      compute_travel locs df row = Except.error "AttributeError: opponent_team") ∧
    (∀ lat1 lon1 lat2 lon2 : ℝ,
      haversine lat1 lon1 lat2 lon2 = haversine lat2 lon2 lat1 lon1 ∧
      0 ≤ haversine lat1 lon1 lat2 lon2) := by
  refine ⟨?_, ?_, ?_⟩
  · intro locs df row h
    unfold compute_travel
    rw [h]
  · intro locs df row prev pdate h1 h2
    unfold compute_travel
    rw [h1]
    dsimp only
    rw [h2]
    rfl
  · intro lat1 lon1 lat2 lon2
    constructor
    · simp only [haversine]
      congr 1
      congr 1
      congr 1
      rw [show (lat1 - lat2) * (Real.pi / 180) = -((lat2 - lat1) * (Real.pi / 180)) by ring,
        Real.cos_neg,
        show (lon1 - lon2) * (Real.pi / 180) = -((lon2 - lon1) * (Real.pi / 180)) by ring,
        Real.cos_neg]
      ring
    · simp only [haversine]
      exact mul_nonneg (by norm_num) (Real.arcsin_nonneg.mpr (Real.sqrt_nonneg _))

/-- C8 witness: the amended theorem applied at concrete rows and
(NBA-like) coordinates. -/
theorem C8_witness :
    compute_travel (fun _ => (0, 0)) [] trowFirst = Except.ok 0 ∧
    haversine 34 (-118) 42 (-71) = haversine 42 (-71) 34 (-118) ∧
    0 ≤ haversine 34 (-118) 42 (-71) ∧
    compute_travel (fun _ => (0, 0)) [trowFirst, trowPrev] trowPrev =
      Except.error "AttributeError: opponent_team" :=
  ⟨C8_travel_amended.1 (fun _ => (0, 0)) [] trowFirst rfl,
   (C8_travel_amended.2.2 34 (-118) 42 (-71)).1,
   (C8_travel_amended.2.2 34 (-118) 42 (-71)).2,
   C8_travel_amended.2.1 (fun _ => (0, 0)) [trowFirst, trowPrev] trowPrev trowFirst 1 rfl rfl⟩

/-- C9 witness: the amended theorem at the malformed single-team
boxscore. -/
theorem C9_witness :
    (malRows.map (fun r => r.team_id)).dedup.length ≠ 2 ∧
    ingest_date [pgMal] (fun _ => Except.ok malRows) { games := [], boxscores := [] } =
      ({ games := upsert_games []
           [{ game_id := 7, season := 2024, game_date := 100, home_team_id := 100,
              away_team_id := 200 }],
         boxscores := malRows }, none) :=
  ⟨by decide,
   C9_no_malformed_validation pgMal malRows { games := [], boxscores := [] } malRows
     (by decide) rfl⟩

end NbaPipeline
